import Mathlib

/-!
Shallow embedding of the telemetry test scripts of this repository:
`generate_test_logs.py` (OTLP payload synthesis), `verify_opensearch_logs.py`
(index verification), `test_integration.py` (pipeline client) and
`test-error-handling.py` (metrics scraping).

Randomness (`random.*`, `uuid.uuid4`, `time.time`, `datetime.now`) is modelled
by explicit oracle parameters: each random draw made by the Python code is one
field of a record of draws that is passed in.  HTTP traffic is modelled by an
`HttpResult` value describing the outcome of the single request a function
performs.  Python dictionaries are modelled as association lists with
insert-or-overwrite semantics.
-/

set_option maxRecDepth 4000

/-- A Python value as it occurs in the generators: either a string or an
integer.  Every generator in the template catalog happens to produce strings,
but `generate_otlp_logs` applies `str(...)` to attribute values regardless of
their type, which this type lets us state. -/
inductive PyVal where
  | s (v : String)
  | i (v : Int)
deriving Repr, DecidableEq

/-- Python `str(...)` on a `PyVal`. -/
def pyStr : PyVal → String
  | .s v => v
  | .i v => toString v

/-- Lookup in an association list, Python `d[k]` / `d.get(k)`. -/
def alookup (k : String) : List (String × α) → Option α
  | [] => none
  | (k', v) :: rest => if k' = k then some v else alookup k rest

/-- Python `k in d` for an association list modelling a dict. -/
def hasKey (k : String) : List (String × α) → Bool
  | [] => false
  | (k', _) :: rest => if k' = k then true else hasKey k rest

/-- Python `d[k] = v`: overwrite the entry in place if the key exists,
otherwise append (dicts preserve first-insertion order). -/
def dictInsert (k : String) (v : α) (l : List (String × α)) : List (String × α) :=
  if hasKey k l then l.map (fun p => if p.1 = k then (k, v) else p)
  else l ++ [(k, v)]

/-- Python `d[k] = f(d[k])` on an existing key (a no-op when the key is
absent; the scripts only use it on keys that were initialised before). -/
def dictUpdate (k : String) (u : α → α) (l : List (String × α)) : List (String × α) :=
  l.map (fun p => if p.1 = k then (p.1, u p.2) else p)

/-- Decides whether the first list is a prefix of the second. -/
def isPrefixCL : List Char → List Char → Bool
  | [], _ => true
  | _ :: _, [] => false
  | a :: as, b :: bs => if a = b then isPrefixCL as bs else false

/-- Decides whether `needle` occurs as a contiguous sublist, Python
`needle in haystack` on strings. -/
def containsSub (needle : List Char) : List Char → Bool
  | [] => needle.isEmpty
  | c :: rest => if isPrefixCL needle (c :: rest) then true else containsSub needle rest

/-- Python `sub in s` for strings. -/
def containsStr (sub s : String) : Bool :=
  containsSub sub.toList s.toList

/-- Python `s.startswith(pre)`. -/
def startsWithStr (pre s : String) : Bool :=
  isPrefixCL pre.toList s.toList

/-- Python `c in s` for a single character. -/
def strContainsChar (c : Char) (s : String) : Bool :=
  s.toList.any (fun d => decide (d = c))

/-- Python `s.lower()` (ASCII, which is all the scripts compare). -/
def strLower (s : String) : String :=
  String.mk (s.toList.map Char.toLower)

/-- Helper of `splitOnChar`: the accumulator holds the current piece in
reverse. -/
def splitOnCharGo (sep : Char) : List Char → List Char → List String
  | [], acc => [String.mk acc.reverse]
  | c :: rest, acc =>
    if c = sep then String.mk acc.reverse :: splitOnCharGo sep rest []
    else splitOnCharGo sep rest (c :: acc)

/-- Python `s.split(sep)` for a single-character separator (keeps empty
pieces, `"".split(sep) == [""]`). -/
def splitOnChar (sep : Char) (s : String) : List String :=
  splitOnCharGo sep s.toList []

/-- The two failure modes of Python `str.format` relevant here: a placeholder
whose key is not among the keyword arguments (`KeyError`), and a malformed
template with stray or unterminated braces (`ValueError`). -/
inductive FmtErr where
  | missingKey (k : String)
  | malformed
deriving Repr, DecidableEq

/-- Core of Python `template.format(**kwargs)` restricted to the simple
`\x7bname\x7d` fields used by this repository's message templates (no
conversion or format specifications, no nested fields).  The second argument
is `none` outside a replacement field and `some acc` while scanning a field
name (accumulated in reverse).  `\x7b\x7b` and `\x7d\x7d` are brace escapes;
a lone closing brace or an unterminated field is `ValueError`; a field whose
name is not in the mapping is `KeyError`.  Substituted values are converted
with `str`. -/
def pyFormatGo (f : String → Option PyVal) : List Char → Option (List Char) → Except FmtErr (List Char)
  | [], none => .ok []
  | [], some _ => .error .malformed
  | c :: rest, some acc =>
    if c = '}' then
      match f (String.mk acc.reverse) with
      | some v =>
        match pyFormatGo f rest none with
        | .ok t => .ok ((pyStr v).toList ++ t)
        | .error e => .error e
      | none => .error (.missingKey (String.mk acc.reverse))
    else pyFormatGo f rest (some (c :: acc))
  | '{' :: '{' :: rest, none =>
    match pyFormatGo f rest none with
    | .ok t => .ok ('{' :: t)
    | .error e => .error e
  | '}' :: '}' :: rest, none =>
    match pyFormatGo f rest none with
    | .ok t => .ok ('}' :: t)
    | .error e => .error e
  | '{' :: rest, none => pyFormatGo f rest (some [])
  | '}' :: _, none => .error .malformed
  | c :: rest, none =>
    match pyFormatGo f rest none with
    | .ok t => .ok (c :: t)
    | .error e => .error e

/-- The replacement-field names scanned by `pyFormatGo`, in order. -/
def namesGo : List Char → Option (List Char) → List String
  | [], _ => []
  | c :: rest, some acc =>
    if c = '}' then String.mk acc.reverse :: namesGo rest none
    else namesGo rest (some (c :: acc))
  | '{' :: '{' :: rest, none => namesGo rest none
  | '}' :: '}' :: rest, none => namesGo rest none
  | '{' :: rest, none => namesGo rest (some [])
  | '}' :: _, none => []
  | _ :: rest, none => namesGo rest none

/-- Checks that a template's braces are well formed, so that `pyFormatGo`
can only fail with `KeyError`, never `ValueError`.  The boolean argument
records whether we are inside a replacement field. -/
def bracesOk : List Char → Bool → Bool
  | [], inField => !inField
  | c :: rest, true => if c = '}' then bracesOk rest false else bracesOk rest true
  | '{' :: '{' :: rest, false => bracesOk rest false
  | '}' :: '}' :: rest, false => bracesOk rest false
  | '{' :: rest, false => bracesOk rest true
  | '}' :: _, false => false
  | _ :: rest, false => bracesOk rest false

/-- The placeholder names of a message template string. -/
def placeholderNames (tmpl : String) : List String :=
  namesGo tmpl.toList none

/-- An attribute value in a log template: either a literal value or a
callable (`lambda`), whose result is supplied by the randomness oracle when
the template is resolved. -/
inductive AttrSpec where
  | lit (v : PyVal)
  | gen
deriving Repr, DecidableEq

/-- One entry of the template catalog: `severity` tuple, `message_template`
and `attributes` mapping (in Python dict insertion order). -/
structure Template where
  severityNumber : Nat
  severityText : String
  message_template : String
  attributes : List (String × AttrSpec)
deriving Repr, DecidableEq

/-- Result of `TestLogGenerator.resolve_template_values`: the shallow copy of
the template with `message` and resolved `attributes` filled in. -/
structure Resolved where
  severityNumber : Nat
  severityText : String
  message_template : String
  message : String
  attributes : List (String × PyVal)
deriving Repr, DecidableEq

/-- The attribute-resolution loop of `resolve_template_values`: walks the
`attributes` dict, invoking each callable (the `j`-th callable invocation
yields `oracle j`), accumulating `resolved_attributes` and, for every key
whose `\x7bkey\x7d` occurs in the message template, `format_values`. -/
def resolveAttrsGo (oracle : Nat → PyVal) (tmplChars : List Char) :
    List (String × AttrSpec) → Nat → List (String × PyVal) → List (String × PyVal) →
    List (String × PyVal) × List (String × PyVal)
  | [], _, ra, fv => (ra, fv)
  | (k, .gen) :: rest, j, ra, fv =>
    let v := oracle j
    resolveAttrsGo oracle tmplChars rest (j + 1) (dictInsert k v ra)
      (if containsSub ('{' :: (k.toList ++ ['}'])) tmplChars then dictInsert k v fv else fv)
  | (k, .lit v) :: rest, j, ra, fv =>
    resolveAttrsGo oracle tmplChars rest j (dictInsert k v ra)
      (if containsSub ('{' :: (k.toList ++ ['}'])) tmplChars then dictInsert k v fv else fv)

/-- The `(resolved_attributes, format_values)` pair computed by
`resolve_template_values` for a template. -/
def resolveAttrs (oracle : Nat → PyVal) (t : Template) :
    List (String × PyVal) × List (String × PyVal) :=
  resolveAttrsGo oracle t.message_template.toList t.attributes 0 [] []

/-- The `resolved_attributes` dict of `resolve_template_values`. -/
def resolved_attributes (oracle : Nat → PyVal) (t : Template) : List (String × PyVal) :=
  (resolveAttrs oracle t).1

/-- The `format_values` dict of `resolve_template_values`. -/
def resolvedFormatValues (oracle : Nat → PyVal) (t : Template) : List (String × PyVal) :=
  (resolveAttrs oracle t).2

/-- Python `tmpl.format(**fv)` as attempted by `resolve_template_values`. -/
def formatAttempt (fv : List (String × PyVal)) (tmpl : String) : Except FmtErr String :=
  match pyFormatGo (fun n => alookup n fv) tmpl.toList none with
  | .ok cs => .ok (String.mk cs)
  | .error e => .error e

/-- Embeds `TestLogGenerator.resolve_template_values`.  The `try/except KeyError`
around the format call means a missing placeholder key falls back to the
unformatted template text; any other formatting failure (malformed braces)
is not caught and propagates, which the `Except` error models. -/
def resolve_template_values (oracle : Nat → PyVal) (t : Template) : Except FmtErr Resolved :=
  let ra := resolved_attributes oracle t
  match formatAttempt (resolvedFormatValues oracle t) t.message_template with
  | .ok m => .ok ⟨t.severityNumber, t.severityText, t.message_template, m, ra⟩
  | .error (.missingKey _) =>
    .ok ⟨t.severityNumber, t.severityText, t.message_template, t.message_template, ra⟩
  | .error .malformed => .error .malformed

/-- Total wrapper used by the generators, which only ever call
`resolve_template_values` on the catalog templates, where it cannot fail
(see `resolve_catalog_isOk` below); the fallback value is never reached. -/
def resolveD (oracle : Nat → PyVal) (t : Template) : Resolved :=
  match resolve_template_values oracle t with
  | .ok r => r
  | .error _ => ⟨t.severityNumber, t.severityText, t.message_template, t.message_template, []⟩

/-- Embeds `TestLogGenerator.generate_log_templates`: the fixed catalog of six
message templates. -/
def generate_log_templates : List Template :=
  [ ⟨9, "INFO", "User authentication successful for user_id={user_id}",
      [("user.id", .gen), ("action", .lit (.s "login")), ("ip_address", .gen),
       ("user_agent", .lit (.s "Mozilla/5.0 (compatible; TestClient/1.0)"))]⟩,
    ⟨13, "ERROR", "Database connection failed: {error_reason}",
      [("database.name", .gen), ("error.type", .gen), ("retry_count", .gen),
       ("error_reason", .gen)]⟩,
    ⟨5, "DEBUG", "Processing request with correlation_id={correlation_id}",
      [("correlation_id", .gen), ("request.method", .gen), ("request.path", .gen),
       ("response.status_code", .gen)]⟩,
    ⟨17, "FATAL", "Critical system failure: {failure_type}",
      [("memory.used", .gen), ("system.component", .gen), ("failure_type", .gen)]⟩,
    ⟨12, "WARN", "High response time detected: {response_time}ms for endpoint {endpoint}",
      [("response_time", .gen), ("endpoint", .gen), ("threshold", .lit (.s "1000ms")),
       ("client_id", .gen)]⟩,
    ⟨9, "INFO", "Order {order_id} processed successfully for customer {customer_id}",
      [("order_id", .gen), ("customer_id", .gen), ("order_amount", .gen),
       ("payment_method", .gen)]⟩ ]

/-- The fixed severity catalog: label paired with its number. -/
def sevPairs : List (String × Nat) :=
  [("INFO", 9), ("ERROR", 13), ("DEBUG", 5), ("FATAL", 17), ("WARN", 12)]

/-- Models `random.choice(log_templates)` by an oracle-supplied index taken
modulo the catalog size. -/
def templateAt (n : Nat) : Template :=
  generate_log_templates.getD (n % generate_log_templates.length) ⟨9, "INFO", "", []⟩

/-- Python `f"\x7bn:02d\x7d"` for a nonnegative number. -/
def pad2 (n : Nat) : String :=
  if n < 10 then "0" ++ toString n else toString n

/-- Models `random.choice(["development", "staging", "production"])` via an
oracle-supplied index. -/
def envAt (n : Nat) : String :=
  ["development", "staging", "production"].getD (n % 3) "development"

/-- An OTLP attribute entry `{"key": ..., "value": {"stringValue": ...}}`;
the `stringValue` field is the content of the typed string wrapper. -/
structure OtlpKV where
  key : String
  stringValue : String
deriving Repr, DecidableEq

/-- One OTLP log record as built by `generate_otlp_logs`; `body` holds the
record's `body.stringValue`. -/
structure LogRecord where
  timeUnixNano : String
  observedTimeUnixNano : String
  severityNumber : Nat
  severityText : String
  body : String
  attributes : List OtlpKV
  traceId : String
  spanId : String
  flags : Nat
deriving Repr, DecidableEq

/-- The `scope` object of a `scopeLogs` entry. -/
structure OtlpScope where
  name : String
  version : String
deriving Repr, DecidableEq

/-- One `scopeLogs` entry. -/
structure ScopeLog where
  scope : OtlpScope
  logRecords : List LogRecord
deriving Repr, DecidableEq

/-- The `resource` object of a `resourceLogs` entry. -/
structure OtlpResource where
  attributes : List OtlpKV
deriving Repr, DecidableEq

/-- One `resourceLogs` entry. -/
structure ResourceLog where
  resource : OtlpResource
  scopeLogs : List ScopeLog
deriving Repr, DecidableEq

/-- The whole OTLP payload returned by `generate_otlp_logs`. -/
structure OtlpPayload where
  resourceLogs : List ResourceLog
deriving Repr, DecidableEq

/-- The generator object: constructor arguments of `TestLogGenerator`. -/
structure TestLogGenerator where
  service_name : String
  service_version : String
deriving Repr, DecidableEq

/-- All random draws made by one `generate_otlp_logs` call:
`uuid_trace_hex` is the batch's `uuid.uuid4().hex` (used only when no trace
id is supplied), `template_choice i` the `random.choice` index for record
`i`, `attr_oracle i j` the value of the `j`-th callable attribute of record
`i`, `uuid_span_hex i` the span `uuid.uuid4().hex` of record `i`,
`host_rand` the `random.randint(1, 10)` host number, `env_rand` the
deployment-environment choice and `time_now_ns` the value of
`int(time.time() * 1_000_000_000)`. -/
structure OtlpRand where
  uuid_trace_hex : String
  template_choice : Nat → Nat
  attr_oracle : Nat → Nat → PyVal
  uuid_span_hex : Nat → String
  host_rand : Nat
  env_rand : Nat
  time_now_ns : Nat

/-- The loop body of `generate_otlp_logs` building log record `i`. -/
def otlpLogRecord (tid : String) (r : OtlpRand) (i : Nat) : LogRecord :=
  let t := templateAt (r.template_choice i)
  let rt := resolveD (r.attr_oracle i) t
  { timeUnixNano := toString (r.time_now_ns + i * 1000000)
    observedTimeUnixNano := toString (r.time_now_ns + i * 1000000)
    severityNumber := rt.severityNumber
    severityText := rt.severityText
    body := rt.message
    attributes := rt.attributes.map (fun p => ⟨p.1, pyStr p.2⟩)
    traceId := tid
    spanId := (r.uuid_span_hex i).take 16
    flags := 1 }

/-- Embeds `TestLogGenerator.generate_otlp_logs`. -/
def generate_otlp_logs (g : TestLogGenerator) (num_logs : Nat) (trace_id : Option String)
    (r : OtlpRand) : OtlpPayload :=
  let tid := trace_id.getD r.uuid_trace_hex
  let log_records := (List.range num_logs).map (otlpLogRecord tid r)
  { resourceLogs := [
      { resource := { attributes := [
          ⟨"service.name", g.service_name⟩,
          ⟨"service.version", g.service_version⟩,
          ⟨"host.name", "host-" ++ pad2 r.host_rand⟩,
          ⟨"container.name", g.service_name ++ "-container"⟩,
          ⟨"deployment.environment", envAt r.env_rand⟩ ] }
        scopeLogs := [
          { scope := ⟨g.service_name ++ "-logger", "1.0.0"⟩
            logRecords := log_records } ] } ] }

/-- All log records of an OTLP payload, across every resource and scope. -/
def allRecords (p : OtlpPayload) : List LogRecord :=
  (p.resourceLogs.map (fun rl => (rl.scopeLogs.map (fun sl => sl.logRecords)).flatten)).flatten

/-- One record of `generate_structured_logs` (the non-OTLP format). -/
structure StructuredLog where
  timestamp : String
  service_name : String
  service_version : String
  severity_text : String
  severity_number : Nat
  message : String
  attributes : List (String × PyVal)
  trace_id : String
  span_id : String
deriving Repr, DecidableEq

/-- All random draws made by one `generate_structured_logs` call.  Note that
`uuid_trace_hex` is indexed by the record number: the code draws
`uuid.uuid4().hex` for `trace_id` inside the per-record loop. -/
structure StructuredRand where
  template_choice : Nat → Nat
  attr_oracle : Nat → Nat → PyVal
  uuid_trace_hex : Nat → String
  uuid_span_hex : Nat → String
  now_iso : Nat → String

/-- The loop body of `generate_structured_logs` building record `i`. -/
def structuredLogRecord (g : TestLogGenerator) (r : StructuredRand) (i : Nat) : StructuredLog :=
  let t := templateAt (r.template_choice i)
  let rt := resolveD (r.attr_oracle i) t
  { timestamp := r.now_iso i
    service_name := g.service_name
    service_version := g.service_version
    severity_text := rt.severityText
    severity_number := rt.severityNumber
    message := rt.message
    attributes := rt.attributes
    trace_id := r.uuid_trace_hex i
    span_id := (r.uuid_span_hex i).take 16 }

/-- Embeds `TestLogGenerator.generate_structured_logs`. -/
def generate_structured_logs (g : TestLogGenerator) (num_logs : Nat)
    (r : StructuredRand) : List StructuredLog :=
  (List.range num_logs).map (structuredLogRecord g r)

/-- Outcome of the single HTTP request a function makes: either a response
with a status code, a parsed body of type `β` and the raw response text, or
a transport-level exception (`requests.RequestException`). -/
inductive HttpResult (β : Type) where
  | response (status : Nat) (body : β) (text : String)
  | exn (msg : String)
deriving Repr, DecidableEq

/-- Whether the outcome is an HTTP 200 response. -/
def statusIs200 : HttpResult β → Bool
  | .response status _ _ => decide (status = 200)
  | .exn _ => false

/-- The `hits.total` field of a search response, which depending on the
search-engine version is a bare number, an object possibly carrying a
`value` field, or absent altogether (`.get` then defaults to `\x7b\x7d`). -/
inductive HitsTotal where
  | scalar (n : Int)
  | obj (value : Option Int)
  | absent
deriving Repr, DecidableEq

/-- One search hit; `source` is its `_source` document, a mapping whose
values may be JSON `null` (`none`). -/
structure Hit where
  source : List (String × Option PyVal)
deriving Repr, DecidableEq

/-- The parts of an OpenSearch search response body the scripts read:
`hits.total`, `hits.hits` and the aggregation buckets
(`aggregations.<name>.buckets` as key/doc_count pairs). -/
structure SearchResp where
  total : HitsTotal
  hits : List Hit
  aggregations : List (String × List (String × Int))
deriving Repr, DecidableEq

/-- The second component of `OpenSearchLogVerifier.search_logs`'s return
value: the parsed JSON on success, or the `{"error": ...}` dict. -/
inductive SearchLogsRet where
  | ok (resp : SearchResp)
  | err (msg : String)
deriving Repr, DecidableEq

/-- Embeds `OpenSearchLogVerifier.search_logs`: a 200 response yields
`(True, response.json())`; any other status yields `(False, {"error":
f"HTTP {status}: {text}"})`; a `RequestException` yields `(False,
{"error": str(e)})`. -/
def search_logs (res : HttpResult SearchResp) : Bool × SearchLogsRet :=
  match res with
  | .response status body text =>
    if status = 200 then (true, .ok body)
    else (false, .err ("HTTP " ++ toString status ++ ": " ++ text))
  | .exn e => (false, .err e)

/-- Embeds `DataPrepperIntegrationTest.send_test_logs`: posts the payload once and
returns whether the response status was 200; non-200 statuses and transport
exceptions are logged and turned into `False`.  The payload construction and
the POST itself are abstracted into the `HttpResult` argument. -/
def send_test_logs (res : HttpResult Unit) : Bool :=
  match res with
  | .response status _ _ => decide (status = 200)
  | .exn _ => false

/-- Python `result.get("hits", \x7b\x7d).get("hits", [])` applied to the
second component of `search_logs`'s return value (an error dict has no
`hits` key, so it yields `[]`). -/
def hitsOf : SearchLogsRet → List Hit
  | .ok r => r.hits
  | .err _ => []

/-- Python `result.get("hits", \x7b\x7d).get("total", \x7b\x7d)` on the second
component of `search_logs`'s return value. -/
def totalOf : SearchLogsRet → HitsTotal
  | .ok r => r.total
  | .err _ => .absent

/-- Python `agg_result.get("aggregations", \x7b\x7d).get(name,
\x7b\x7d).get("buckets", [])`. -/
def aggBuckets (name : String) : SearchLogsRet → List (String × Int)
  | .ok r => (alookup name r.aggregations).getD []
  | .err _ => []

/-- The scalar-vs-object normalisation of `hits.total` in
`get_log_statistics`: a dict (or a defaulted `\x7b\x7d`) is read via
`.get("value", 0)`, a bare number is taken as is. -/
def extractTotalCount : HitsTotal → Int
  | .scalar n => n
  | .obj (some v) => v
  | .obj none => 0
  | .absent => 0

/-- The statistics dict built by `get_log_statistics`. -/
structure LogStats where
  total_logs : Int
  severity_distribution : List (String × Int)
  service_distribution : List (String × Int)
deriving Repr, DecidableEq

/-- Embeds `OpenSearchLogVerifier.get_log_statistics`, parameterised by the
outcomes of its two search requests (the match-all count query and the
aggregation query).  A failed count query returns the error dict; a failed
aggregation query leaves the distributions empty. -/
def get_log_statistics (countRes aggRes : HttpResult SearchResp) : Except String LogStats :=
  match search_logs countRes with
  | (false, _) => .error "Failed to get log statistics"
  | (true, ret) =>
    let total_count := extractTotalCount (totalOf ret)
    match search_logs aggRes with
    | (true, aggRet) =>
      .ok ⟨total_count,
        (aggBuckets "severity_distribution" aggRet).foldl (fun acc p => dictInsert p.1 p.2 acc) [],
        (aggBuckets "service_distribution" aggRet).foldl (fun acc p => dictInsert p.1 p.2 acc) []⟩
    | (false, _) => .ok ⟨total_count, [], []⟩

/-- Per-field tally of `verify_log_fields`. -/
structure FieldStat where
  present : Nat
  missing : Nat
  sample_values : List String
deriving Repr, DecidableEq

/-- The result dict of `verify_log_fields` on success. -/
structure FieldReport where
  total_logs_checked : Nat
  field_statistics : List (String × FieldStat)
deriving Repr, DecidableEq

/-- Python `field in source and source[field] is not None`, returning the
value when it holds. -/
def fieldIsPresent (src : List (String × Option PyVal)) (f : String) : Option PyVal :=
  match alookup f src with
  | some (some v) => some v
  | _ => none

/-- The per-hit, per-field update of `verify_log_fields`: bump `present`
(recording up to three sample values) or `missing`. -/
def bumpFieldStat (src : List (String × Option PyVal)) (f : String) (fs : FieldStat) : FieldStat :=
  match fieldIsPresent src f with
  | some v =>
    { fs with present := fs.present + 1
              sample_values :=
                if fs.sample_values.length < 3 then fs.sample_values ++ [pyStr v]
                else fs.sample_values }
  | none => { fs with missing := fs.missing + 1 }

/-- The inner loop of `verify_log_fields`: one hit bumps the tally of every
name in `required_fields` (a name listed twice is bumped twice). -/
def processHit (required_fields : List String) (src : List (String × Option PyVal))
    (stats : List (String × FieldStat)) : List (String × FieldStat) :=
  required_fields.foldl (fun st f => dictUpdate f (bumpFieldStat src f) st) stats

/-- The initialisation loop of `verify_log_fields`. -/
def initFieldStats (required_fields : List String) : List (String × FieldStat) :=
  required_fields.foldl (fun acc f => dictInsert f ⟨0, 0, []⟩ acc) []

/-- Embeds `OpenSearchLogVerifier.verify_log_fields`, parameterised by the outcome
of its match-all sample query. -/
def verify_log_fields (res : HttpResult SearchResp) (required_fields : List String) :
    Except String FieldReport :=
  match search_logs res with
  | (false, _) => .error "Failed to retrieve logs for field verification"
  | (true, ret) =>
    let hits := hitsOf ret
    if hits.isEmpty then .error "No logs found for verification"
    else
      .ok ⟨hits.length,
        hits.foldl (fun st hit => processHit required_fields hit.source st)
          (initFieldStats required_fields)⟩

/-- The keyword filter of `check_dlq_metrics`: Python
`'dlq' in line.lower() or 'error' in line.lower()`. -/
def kwLine (line : String) : Bool :=
  containsStr "dlq" (strLower line) || containsStr "error" (strLower line)

/-- Python `line.split(' ')[i]` (total: defaults to `""`, though the code
only indexes after checking `' ' in line`). -/
def tok (line : String) (i : Nat) : String :=
  (splitOnChar ' ' line).getD i ""

/-- Embeds `DataPrepperErrorTester.check_dlq_metrics`, parameterised by the outcome
of the metrics GET.  On a 200 response it scans the text line by line,
keeps lines containing `dlq` or `error` (case-insensitively) that do not
start with `#` and contain a space, and maps `line.split(' ')[0]` to
`line.split(' ')[1]`; any other status or an exception yields the empty
dict. -/
def check_dlq_metrics (res : HttpResult Unit) : List (String × String) :=
  match res with
  | .response status _ text =>
    if status = 200 then
      (splitOnChar '\n' text).foldl (fun acc line =>
        if kwLine line then
          if startsWithStr "#" line then acc
          else if strContainsChar ' ' line then dictInsert (tok line 0) (tok line 1) acc
          else acc
        else acc) []
    else []
  | .exn _ => []

/-- Modelled from the amended specification words: select the non-comment
keyword lines that contain a space, split each on spaces and map its first
token to its second token, folding the pairs into a dict. -/
def dlqMappingSpec (text : String) : List (String × String) :=
  (((splitOnChar '\n' text).filter
      (fun line => !startsWithStr "#" line && kwLine line && strContainsChar ' ' line)).map
    (fun line => (tok line 0, tok line 1))).foldl (fun acc p => dictInsert p.1 p.2 acc) []

/-- Everything after the first space of a line (Python
`line.split(' ', 1)[1]`). -/
def restAfterFirstSpace (line : String) : String :=
  String.intercalate " " (splitOnChar ' ' line).tail

/-- Modelled from the claim's words, for the counterexample: "splitting each
such selected line on the first space into a name/value pair" maps the part
before the first space to everything after it. -/
def claimedDlqMapping (text : String) : List (String × String) :=
  (((splitOnChar '\n' text).filter
      (fun line => !startsWithStr "#" line && kwLine line && strContainsChar ' ' line)).map
    (fun line => (tok line 0, restAfterFirstSpace line))).foldl
    (fun acc p => dictInsert p.1 p.2 acc) []

/-- The value of the resource attribute named `k` of the first resource of
an OTLP payload (empty string when absent). -/
def resourceAttrValue (p : OtlpPayload) (k : String) : String :=
  match p.resourceLogs with
  | [] => ""
  | rl :: _ =>
    match rl.resource.attributes.find? (fun a => a.key == k) with
    | some a => a.stringValue
    | none => ""

/-- The property that a resource attribute of a `generate_otlp_logs` batch
(with the default generator configuration) is randomized per batch: some two
draws of the batch randomness give it different values. -/
def ResourceAttrRandomized (k : String) : Prop :=
  ∃ r₁ r₂ : OtlpRand,
    resourceAttrValue (generate_otlp_logs ⟨"test-service", "1.0.0"⟩ 1 none r₁) k ≠
    resourceAttrValue (generate_otlp_logs ⟨"test-service", "1.0.0"⟩ 1 none r₂) k

/-! ## Concrete inputs used by the witnesses -/

/-- A concrete generator configuration (the Python defaults). -/
def gW : TestLogGenerator := ⟨"test-service", "1.0.0"⟩

/-- A concrete attribute oracle. -/
def oracleW : Nat → PyVal := fun j => .s ("v" ++ toString j)

/-- A concrete randomness record for `generate_otlp_logs`. -/
def rW : OtlpRand :=
  ⟨"aabbccddeeff00112233445566778899", fun i => i, fun _ j => oracleW j,
   fun i => toString i ++ "123456789abcdef0123456789abcdef", 3, 1, 1700000000000000000⟩

/-- A concrete randomness record for `generate_structured_logs`. -/
def rsW : StructuredRand :=
  ⟨fun i => i, fun _ j => oracleW j, fun i => "trace" ++ toString i,
   fun i => toString i ++ "123456789abcdef0123456789abcdef", fun i => "2026-01-01T00:00:0" ++ toString i⟩

/-- A concrete randomness record exhibiting distinct per-record trace draws
for `generate_structured_logs`. -/
def rsCex : StructuredRand :=
  ⟨fun _ => 1, fun _ _ => .s "x", fun i => if i = 0 then "aaaa" else "bbbb",
   fun _ => "0123456789abcdef", fun _ => "t"⟩

/-- Index of the first catalog template. -/
def idx0 : Fin generate_log_templates.length := ⟨0, by decide⟩

/-- Index of the second catalog template. -/
def idx1 : Fin generate_log_templates.length := ⟨1, by decide⟩

/-- A concrete search response. -/
def respW : SearchResp :=
  ⟨.obj (some 2), [⟨[("service_name", some (.s "test-service")), ("message", none)]⟩,
                   ⟨[("service_name", some (.s "test-service"))]⟩], []⟩

/-! ## Shared lemmas -/

/-- A successful format run looked up every scanned placeholder name. -/
theorem pyFormatGo_ok_names (f : String → Option PyVal) (l : List Char) (st : Option (List Char)) :
    (∃ s, pyFormatGo f l st = .ok s) → ∀ n ∈ namesGo l st, (f n).isSome := by
  induction l, st using pyFormatGo.induct f <;> simp_all [pyFormatGo, namesGo]

/-- On a well-bracketed template the formatter never fails with
`ValueError`; only `KeyError` is possible. -/
theorem pyFormatGo_not_malformed (f : String → Option PyVal) (l : List Char)
    (st : Option (List Char)) (h : bracesOk l st.isSome = true) :
    pyFormatGo f l st ≠ .error .malformed := by
  induction l, st using pyFormatGo.induct f <;> simp_all [pyFormatGo, bracesOk]

/-- A successful resolution copies severity, template text and the resolved
attributes into the result. -/
theorem resolve_ok_fields (oracle : Nat → PyVal) (t : Template) (r : Resolved)
    (h : resolve_template_values oracle t = .ok r) :
    r.severityNumber = t.severityNumber ∧ r.severityText = t.severityText ∧
      r.message_template = t.message_template ∧ r.attributes = resolved_attributes oracle t := by
  unfold resolve_template_values at h
  split at h
  · injection h with h; subst h; exact ⟨rfl, rfl, rfl, rfl⟩
  · injection h with h; subst h; exact ⟨rfl, rfl, rfl, rfl⟩
  · cases h

/-- Resolution copies the template's severity number unchanged. -/
theorem resolveD_severityNumber (oracle : Nat → PyVal) (t : Template) :
    (resolveD oracle t).severityNumber = t.severityNumber := by
  unfold resolveD
  rcases h : resolve_template_values oracle t with e | r
  · rfl
  · exact (resolve_ok_fields oracle t r h).1

/-- Resolution copies the template's severity label unchanged. -/
theorem resolveD_severityText (oracle : Nat → PyVal) (t : Template) :
    (resolveD oracle t).severityText = t.severityText := by
  unfold resolveD
  rcases h : resolve_template_values oracle t with e | r
  · rfl
  · exact (resolve_ok_fields oracle t r h).2.1

/-- On a well-bracketed template, `resolve_template_values` cannot raise,
and if its format attempt failed the message is the template verbatim. -/
theorem resolve_isOk_of_bracesOk (oracle : Nat → PyVal) (t : Template)
    (h : bracesOk t.message_template.toList false = true) :
    ∃ r, resolve_template_values oracle t = .ok r ∧
      (∀ e, formatAttempt (resolvedFormatValues oracle t) t.message_template = .error e →
        r.message = t.message_template) := by
  have hnm := pyFormatGo_not_malformed (fun n => alookup n (resolvedFormatValues oracle t))
    t.message_template.toList none h
  unfold resolve_template_values
  rcases hf : formatAttempt (resolvedFormatValues oracle t) t.message_template with e | m
  · cases e with
    | missingKey k => exact ⟨_, rfl, fun e _ => rfl⟩
    | malformed =>
      exfalso
      apply hnm
      unfold formatAttempt at hf
      split at hf <;> simp_all
  · exact ⟨_, rfl, by simp⟩

/-- Every message template in the catalog is well bracketed. -/
theorem catalog_bracesOk :
    ∀ t ∈ generate_log_templates, bracesOk t.message_template.toList false = true := by
  decide

/-- Every catalog template carries a nonempty severity label from the fixed
severity catalog, paired with its severity number. -/
theorem catalog_sev : ∀ t ∈ generate_log_templates,
    t.severityText ≠ "" ∧ (t.severityText, t.severityNumber) ∈ sevPairs := by
  decide

/-- The template chosen for a record is always one of the catalog. -/
theorem templateAt_mem (n : Nat) : templateAt n ∈ generate_log_templates := by
  unfold templateAt
  have hlt : n % generate_log_templates.length < generate_log_templates.length :=
    Nat.mod_lt _ (by norm_num [generate_log_templates])
  rw [List.getD_eq_getElem _ _ hlt]
  exact List.getElem_mem hlt

/-- The records of a generated payload are exactly the mapped range. -/
theorem allRecords_generate (g : TestLogGenerator) (N : Nat) (tid : Option String) (r : OtlpRand) :
    allRecords (generate_otlp_logs g N tid r) =
      (List.range N).map (otlpLogRecord (tid.getD r.uuid_trace_hex) r) := by
  simp [allRecords, generate_otlp_logs]

/-! ## Claims -/

/-- C1: for every count `N ≥ 0`, one `generate_otlp_logs` call with
`num_logs = N` produces a tree with exactly `N` log records under one scope
of one resource, and every record's `severityText` is a nonempty label from
the fixed catalog (INFO, ERROR, DEBUG, FATAL, WARN) paired with that
template's `severityNumber`; each record's body is a string by construction
(`body` is the record's `body.stringValue`). -/
theorem c1_otlp_batch_count_and_severity (g : TestLogGenerator) (N : Nat)
    (tid : Option String) (r : OtlpRand) :
    (allRecords (generate_otlp_logs g N tid r)).length = N ∧
    (generate_otlp_logs g N tid r).resourceLogs.length = 1 ∧
    (∀ rl ∈ (generate_otlp_logs g N tid r).resourceLogs, rl.scopeLogs.length = 1) ∧
    ∀ rec ∈ allRecords (generate_otlp_logs g N tid r),
      rec.severityText ≠ "" ∧ (rec.severityText, rec.severityNumber) ∈ sevPairs := by
  refine ⟨by rw [allRecords_generate]; simp, rfl, ?_, ?_⟩
  · intro rl hrl
    simp only [generate_otlp_logs, List.mem_singleton] at hrl
    subst hrl
    rfl
  · intro rec hrec
    rw [allRecords_generate] at hrec
    obtain ⟨i, hi, rfl⟩ := List.mem_map.1 hrec
    have h1 := resolveD_severityText (r.attr_oracle i) (templateAt (r.template_choice i))
    have h2 := resolveD_severityNumber (r.attr_oracle i) (templateAt (r.template_choice i))
    have h3 := catalog_sev _ (templateAt_mem (r.template_choice i))
    constructor
    · simpa [otlpLogRecord, h1] using h3.1
    · simpa [otlpLogRecord, h1, h2] using h3.2

/-- C1 witness: the batch properties at a concrete size-3 call, specialised
to its first record. -/
theorem c1_witness :
    (allRecords (generate_otlp_logs gW 3 none rW)).length = 3 ∧
    (generate_otlp_logs gW 3 none rW).resourceLogs.length = 1 ∧
    (otlpLogRecord rW.uuid_trace_hex rW 0).severityText ≠ "" ∧
    ((otlpLogRecord rW.uuid_trace_hex rW 0).severityText,
      (otlpLogRecord rW.uuid_trace_hex rW 0).severityNumber) ∈ sevPairs := by
  have h := c1_otlp_batch_count_and_severity gW 3 none rW
  exact ⟨h.1, h.2.1, (h.2.2.2 _ (by decide)).1, (h.2.2.2 _ (by decide)).2⟩

/-- C2 counterexample: `generate_structured_logs` is a synthesizer call
producing a batch, yet its records do not share one trace identifier — the
code draws a fresh `uuid.uuid4().hex` per record, so with distinct draws the
two records of a size-2 batch carry different trace identifiers. -/
theorem c2_counterexample_structured_trace_ids :
    ¬ (∀ a ∈ generate_structured_logs ⟨"test-service", "1.0.0"⟩ 2 rsCex,
        ∀ b ∈ generate_structured_logs ⟨"test-service", "1.0.0"⟩ 2 rsCex,
          a.trace_id = b.trace_id) := by
  decide

/-- C2 (amended): in `generate_otlp_logs` all records of one call share one
trace identifier — the supplied one, else the single batch draw — and record
`i`'s span identifier is its own draw truncated to 16 hex digits; in
`generate_structured_logs` both the trace identifier and the span identifier
of record `i` are that record's own independent draws. -/
theorem c2_amended_trace_and_span_identifiers (g : TestLogGenerator) (N : Nat)
    (tid : Option String) (r : OtlpRand) (rs : StructuredRand) :
    (∀ rec ∈ allRecords (generate_otlp_logs g N tid r),
        rec.traceId = tid.getD r.uuid_trace_hex) ∧
    (∀ i rec, (allRecords (generate_otlp_logs g N tid r))[i]? = some rec →
        rec.spanId = (r.uuid_span_hex i).take 16) ∧
    (∀ i sl, (generate_structured_logs g N rs)[i]? = some sl →
        sl.trace_id = rs.uuid_trace_hex i ∧ sl.span_id = (rs.uuid_span_hex i).take 16) := by
  refine ⟨?_, ?_, ?_⟩
  · intro rec hrec
    rw [allRecords_generate] at hrec
    obtain ⟨i, hi, rfl⟩ := List.mem_map.1 hrec
    rfl
  · intro i rec h
    rw [allRecords_generate] at h
    rcases Nat.lt_or_ge i N with hiN | hiN
    · rw [List.getElem?_map, List.getElem?_range hiN] at h
      simp only [Option.map_some', Option.some.injEq] at h
      subst h
      simp only [otlpLogRecord]
    · rw [List.getElem?_map, List.getElem?_eq_none (by simpa using hiN)] at h
      cases h
  · intro i sl h
    unfold generate_structured_logs at h
    rcases Nat.lt_or_ge i N with hiN | hiN
    · rw [List.getElem?_map, List.getElem?_range hiN] at h
      simp only [Option.map_some', Option.some.injEq] at h
      subst h
      exact ⟨by simp only [structuredLogRecord], by simp only [structuredLogRecord]⟩
    · rw [List.getElem?_map, List.getElem?_eq_none (by simpa using hiN)] at h
      cases h

/-- C2 witness: the amended identifier properties at a concrete call,
specialised to concrete records. -/
theorem c2_witness :
    (otlpLogRecord ((some "feedbead").getD rW.uuid_trace_hex) rW 0).traceId =
      (some "feedbead").getD rW.uuid_trace_hex ∧
    (otlpLogRecord ((some "feedbead").getD rW.uuid_trace_hex) rW 0).spanId =
      (rW.uuid_span_hex 0).take 16 ∧
    (structuredLogRecord gW rsW 1).trace_id = rsW.uuid_trace_hex 1 ∧
    (structuredLogRecord gW rsW 1).span_id = (rsW.uuid_span_hex 1).take 16 := by
  have h := c2_amended_trace_and_span_identifiers gW 2 (some "feedbead") rW rsW
  exact ⟨h.1 _ (by decide), h.2.1 0 _ (by rfl), (h.2.2 1 _ (by rfl)).1, (h.2.2 1 _ (by rfl)).2⟩

/-- C3: a resolved message is all-or-nothing — either the format attempt
succeeded, in which case the message is its output and every placeholder
name of the template was found among the format values, or the message is
the template text verbatim; no partially substituted message exists. -/
theorem c3_resolve_no_partial_substitution (t : Template) (oracle : Nat → PyVal) (r : Resolved)
    (h : resolve_template_values oracle t = .ok r) :
    r.message = t.message_template ∨
      (∃ s, formatAttempt (resolvedFormatValues oracle t) t.message_template = .ok s ∧
        r.message = s ∧
        ∀ n ∈ placeholderNames t.message_template,
          (alookup n (resolvedFormatValues oracle t)).isSome) := by
  unfold resolve_template_values at h
  rcases hf : formatAttempt (resolvedFormatValues oracle t) t.message_template with e | m
  · rw [hf] at h
    cases e with
    | missingKey k =>
      left
      simp only [] at h
      injection h with h
      subst h
      rfl
    | malformed => cases h
  · right
    rw [hf] at h
    simp only [] at h
    injection h with h
    subst h
    refine ⟨m, rfl, rfl, ?_⟩
    intro n hn
    have hok : ∃ s, pyFormatGo (fun n => alookup n (resolvedFormatValues oracle t))
        t.message_template.toList none = .ok s := by
      unfold formatAttempt at hf
      split at hf <;> simp_all
    exact pyFormatGo_ok_names _ _ _ hok n hn

/-- C3 witness: the dichotomy at the catalog's ERROR template with a
concrete oracle — the message is the template verbatim or the fully
substituted text. -/
theorem c3_witness :
    (resolveD oracleW (generate_log_templates.get idx1)).message =
        (generate_log_templates.get idx1).message_template ∨
      (resolveD oracleW (generate_log_templates.get idx1)).message =
        "Database connection failed: v3" := by
  rcases c3_resolve_no_partial_substitution (generate_log_templates.get idx1) oracleW
      (resolveD oracleW (generate_log_templates.get idx1)) (by rfl) with h | ⟨s, hs, hm, _⟩
  · exact .inl h
  · right
    rw [hm]
    have h2 : (Except.ok s : Except FmtErr String) = Except.ok "Database connection failed: v3" :=
      hs.symm.trans (by rfl)
    injection h2

/-- C4: on every template of the catalog (over which the generators range),
`resolve_template_values` never raises: it returns a result, and whenever
the format attempt fails the message falls back to the unformatted template
text verbatim. -/
theorem c4_resolve_catalog_never_raises (i : Fin generate_log_templates.length)
    (oracle : Nat → PyVal) :
    (resolve_template_values oracle (generate_log_templates.get i)).isOk = true ∧
    ∀ e, formatAttempt (resolvedFormatValues oracle (generate_log_templates.get i))
        (generate_log_templates.get i).message_template = .error e →
      (resolveD oracle (generate_log_templates.get i)).message =
        (generate_log_templates.get i).message_template := by
  obtain ⟨r, hr, hfb⟩ := resolve_isOk_of_bracesOk oracle _
    (catalog_bracesOk _ (List.get_mem generate_log_templates i.1 i.2))
  constructor
  · rw [hr]; rfl
  · intro e he
    have hD : resolveD oracle (generate_log_templates.get i) = r := by
      unfold resolveD; rw [hr]
    rw [hD]
    exact hfb e he

/-- C4 witness: the first catalog template (whose `user_id` placeholder is
not an attribute key, so the format attempt fails with `KeyError`) resolves
without raising and falls back to the verbatim template text, at a concrete
oracle. -/
theorem c4_witness :
    (resolve_template_values oracleW (generate_log_templates.get idx0)).isOk = true ∧
    (resolveD oracleW (generate_log_templates.get idx0)).message =
      (generate_log_templates.get idx0).message_template :=
  ⟨(c4_resolve_catalog_never_raises idx0 oracleW).1,
   (c4_resolve_catalog_never_raises idx0 oracleW).2 (.missingKey "user_id") (by rfl)⟩

/-- C5: for the cited check functions, a non-200 response status or a
transport exception produces a falsy result — `search_logs` returns success
flag `False` (paired with its error-message dict) and `send_test_logs`
returns `False` — with no exception propagating and no retry (each function
consumes the outcome of its single request). -/
theorem c5_non200_falsy_results (res₁ : HttpResult SearchResp) (res₂ : HttpResult Unit)
    (h₁ : statusIs200 res₁ = false) (h₂ : statusIs200 res₂ = false) :
    (search_logs res₁).1 = false ∧ send_test_logs res₂ = false := by
  constructor
  · cases res₁ with
    | response status body text =>
      simp only [statusIs200, decide_eq_false_iff_not] at h₁
      simp [search_logs, h₁]
    | exn e => rfl
  · cases res₂ with
    | response status body text =>
      simp only [statusIs200, decide_eq_false_iff_not] at h₂
      simp [send_test_logs, h₂]
    | exn e => rfl

/-- C5 witness: a concrete 500 response and a concrete transport
exception. -/
theorem c5_witness :
    (search_logs (.response 500 respW "Internal Server Error")).1 = false ∧
      send_test_logs (.exn "ConnectionError") = false :=
  c5_non200_falsy_results (.response 500 respW "Internal Server Error")
    (.exn "ConnectionError") (by decide) (by decide)

/-- C7: on a successful (HTTP 200) count query, `get_log_statistics`
normalises `hits.total` to a canonical integer whether it is the nested
object or a bare scalar: `{"value": 5}` yields `total_logs = 5`, and a
scalar total is returned as is — whatever the outcome of the aggregation
query. -/
theorem c7_total_logs_canonical_int :
    (∀ (hl : List Hit) (ag : List (String × List (String × Int))) (txt : String)
        (aggRes : HttpResult SearchResp),
      (get_log_statistics (.response 200 ⟨.obj (some 5), hl, ag⟩ txt) aggRes).map
        (fun st => st.total_logs) = .ok 5) ∧
    (∀ (n : Int) (hl : List Hit) (ag : List (String × List (String × Int))) (txt : String)
        (aggRes : HttpResult SearchResp),
      (get_log_statistics (.response 200 ⟨.scalar n, hl, ag⟩ txt) aggRes).map
        (fun st => st.total_logs) = .ok n) := by
  constructor
  · intro hl ag txt aggRes
    unfold get_log_statistics
    rcases hA : search_logs aggRes with ⟨b, ret⟩
    cases b <;> simp [search_logs, hA, totalOf, extractTotalCount, Except.map]
  · intro n hl ag txt aggRes
    unfold get_log_statistics
    rcases hA : search_logs aggRes with ⟨b, ret⟩
    cases b <;> simp [search_logs, hA, totalOf, extractTotalCount, Except.map]

/-- Membership after a dict insert: an entry is an original one or the
inserted pair. -/
theorem mem_dictInsert {α : Type} (k : String) (v : α) (l : List (String × α))
    (p : String × α) (hp : p ∈ dictInsert k v l) : p ∈ l ∨ p = (k, v) := by
  unfold dictInsert at hp
  split at hp
  · obtain ⟨q, hq, hqe⟩ := List.mem_map.1 hp
    by_cases h : q.1 = k
    · right; rw [← hqe]; simp [h]
    · left; rw [← hqe]; simp only [if_neg h]; exact hq
  · rcases List.mem_append.1 hp with h | h
    · left; exact h
    · right; simpa using h

/-- Every entry of the initial field-statistics dict is a zero tally keyed
by one of the required fields. -/
theorem mem_initGo (fields : List String) :
    ∀ (acc : List (String × FieldStat)) (p : String × FieldStat),
      p ∈ fields.foldl (fun a f => dictInsert f ⟨0, 0, []⟩ a) acc →
      p ∈ acc ∨ (p.2 = ⟨0, 0, []⟩ ∧ p.1 ∈ fields) := by
  induction fields with
  | nil => intro acc p hp; exact .inl hp
  | cons f rest ih =>
    intro acc p hp
    simp only [List.foldl_cons] at hp
    rcases ih _ p hp with h | h
    · rcases mem_dictInsert _ _ _ _ h with h' | h'
      · exact .inl h'
      · right; rw [h']; exact ⟨rfl, by simp⟩
    · right; exact ⟨h.1, by simp [h.2]⟩

/-- The per-hit update distributes as a map over the entries. -/
theorem processHit_eq_map (fields : List String) (src : List (String × Option PyVal))
    (stats : List (String × FieldStat)) :
    processHit fields src stats = stats.map (fun p => fields.foldl
      (fun q f => if q.1 = f then (q.1, bumpFieldStat src f q.2) else q) p) := by
  unfold processHit dictUpdate
  induction fields generalizing stats with
  | nil => simp
  | cons f rest ih =>
    simp only [List.foldl_cons]
    rw [ih, List.map_map]
    rfl

/-- An entry whose key is not a required field is untouched by the per-entry
fold. -/
theorem entryFold_of_not_mem (src : List (String × Option PyVal)) (p : String × FieldStat)
    (fields : List String) (h : p.1 ∉ fields) :
    fields.foldl (fun q f => if q.1 = f then (q.1, bumpFieldStat src f q.2) else q) p = p := by
  induction fields with
  | nil => rfl
  | cons f rest ih =>
    simp only [List.mem_cons, not_or] at h
    simp only [List.foldl_cons, if_neg h.1]
    exact ih h.2

/-- With pairwise-distinct required fields, an entry keyed by one of them is
bumped exactly once per hit. -/
theorem entryFold_of_mem (src : List (String × Option PyVal)) (p : String × FieldStat)
    (fields : List String) (hnd : fields.Nodup) (hmem : p.1 ∈ fields) :
    fields.foldl (fun q f => if q.1 = f then (q.1, bumpFieldStat src f q.2) else q) p =
      (p.1, bumpFieldStat src p.1 p.2) := by
  induction fields with
  | nil => cases hmem
  | cons f rest ih =>
    rcases List.nodup_cons.1 hnd with ⟨hf, hrest⟩
    simp only [List.foldl_cons]
    by_cases hpf : p.1 = f
    · subst hpf
      rw [if_pos rfl]
      exact entryFold_of_not_mem src _ rest (by simpa using hf)
    · rw [if_neg hpf]
      exact ih hrest ((List.mem_cons.1 hmem).resolve_left hpf)

/-- One bump adds exactly one to the present-plus-missing tally. -/
theorem bump_sum (src : List (String × Option PyVal)) (f : String) (fs : FieldStat) :
    (bumpFieldStat src f fs).present + (bumpFieldStat src f fs).missing =
      fs.present + fs.missing + 1 := by
  unfold bumpFieldStat
  split <;> simp <;> omega

/-- Folding the sampled hits preserves the invariant: every tally entry is
keyed by a required field and its present-plus-missing sum equals the number
of hits processed so far. -/
theorem foldHits (fields : List String) (hnd : fields.Nodup) :
    ∀ (hits : List Hit) (stats : List (String × FieldStat)) (n : Nat),
      (∀ p ∈ stats, p.1 ∈ fields ∧ p.2.present + p.2.missing = n) →
      ∀ p ∈ hits.foldl (fun st hit => processHit fields hit.source st) stats,
        p.1 ∈ fields ∧ p.2.present + p.2.missing = n + hits.length := by
  intro hits
  induction hits with
  | nil => intro stats n h p hp; simpa using h p hp
  | cons hit rest ih =>
    intro stats n h p hp
    simp only [List.foldl_cons] at hp
    have h' : ∀ q ∈ processHit fields hit.source stats,
        q.1 ∈ fields ∧ q.2.present + q.2.missing = n + 1 := by
      intro q hq
      rw [processHit_eq_map] at hq
      obtain ⟨q₀, hq₀, rfl⟩ := List.mem_map.1 hq
      have h₀ := h q₀ hq₀
      rw [entryFold_of_mem hit.source q₀ fields hnd h₀.1]
      exact ⟨h₀.1, by rw [bump_sum]; omega⟩
    have hfin := ih (processHit fields hit.source stats) (n + 1) h' p hp
    refine ⟨hfin.1, ?_⟩
    rw [hfin.2]
    simp only [List.length_cons]
    omega

/-- A successful lookup exhibits a matching entry of the list. -/
theorem alookup_mem {α : Type} (k : String) (l : List (String × α)) (v : α)
    (h : alookup k l = some v) : (k, v) ∈ l := by
  induction l with
  | nil => cases h
  | cons p rest ih =>
    rcases p with ⟨k', v'⟩
    unfold alookup at h
    by_cases hk : k' = k
    · rw [if_pos hk] at h
      injection h with h
      subst hk; subst h
      exact List.mem_cons_self _ _
    · rw [if_neg hk] at h
      exact List.mem_cons_of_mem _ (ih h)

/-- C6 counterexample: with the duplicated field list `["a", "a"]` and one
sampled document, the reported tally for field name `a` has
`present + missing = 2` while `total_logs_checked = 1`, so the sums do not
equal the number of sampled documents. -/
theorem c6_counterexample_duplicate_fields :
    verify_log_fields (.response 200 ⟨.obj (some 1), [⟨[("a", some (.s "v"))]⟩], []⟩ "")
        ["a", "a"] =
      .ok ⟨1, [("a", ⟨2, 0, ["v", "v"]⟩)]⟩ ∧
    (2 : Nat) + 0 ≠ 1 := by
  constructor
  · rfl
  · decide

/-- C6 (amended): whenever the field-verification operation succeeds and the
required field names are pairwise distinct, every reported per-field tally
satisfies `present + missing = total_logs_checked`, the number of sampled
documents (a document counting as present exactly when the field exists in
its source with a non-null value); a field name listed `k` times instead
accumulates `k` counts per document. -/
theorem c6_amended_field_counts_sum (res : HttpResult SearchResp) (fields : List String)
    (rep : FieldReport) (hnd : fields.Nodup) (h : verify_log_fields res fields = .ok rep) :
    ∀ f st, alookup f rep.field_statistics = some st →
      st.present + st.missing = rep.total_logs_checked := by
  unfold verify_log_fields at h
  split at h
  · cases h
  · rename_i ret heq
    simp only [] at h
    split at h
    · cases h
    · injection h with h
      subst h
      intro f st hst
      have hmem := alookup_mem f _ st hst
      have hinit : ∀ p ∈ initFieldStats fields, p.1 ∈ fields ∧ p.2.present + p.2.missing = 0 := by
        intro p hp
        rcases mem_initGo fields [] p (by simpa [initFieldStats] using hp) with h' | h'
        · cases h'
        · exact ⟨h'.2, by rw [h'.1]; rfl⟩
      have hfin := foldHits fields hnd (hitsOf ret) (initFieldStats fields) 0 hinit (f, st) hmem
      simpa using hfin.2

/-- C6 witness: the amended tally property at a concrete two-document
sample with distinct required fields, specialised to `service_name`. -/
theorem c6_witness :
    (["service_name", "message"] : List String).Nodup ∧
    verify_log_fields (.response 200 respW "") ["service_name", "message"] =
      .ok ⟨2, [("service_name", ⟨2, 0, ["test-service", "test-service"]⟩),
               ("message", ⟨0, 2, []⟩)]⟩ ∧
    FieldStat.present ⟨2, 0, ["test-service", "test-service"]⟩ +
        FieldStat.missing ⟨2, 0, ["test-service", "test-service"]⟩ =
      FieldReport.total_logs_checked ⟨2, [("service_name", ⟨2, 0, ["test-service", "test-service"]⟩),
               ("message", ⟨0, 2, []⟩)]⟩ := by
  refine ⟨by decide, by rfl, ?_⟩
  exact c6_amended_field_counts_sum (.response 200 respW "") ["service_name", "message"]
    ⟨2, [("service_name", ⟨2, 0, ["test-service", "test-service"]⟩), ("message", ⟨0, 2, []⟩)]⟩
    (by decide) (by rfl) "service_name" ⟨2, 0, ["test-service", "test-service"]⟩ (by rfl)

/-- C8 counterexample: the `service.name` resource attribute is not
randomized per batch — its value is the generator's fixed configuration, the
same for every draw of the batch randomness, refuting "service name ...
independently randomized per batch". -/
theorem c8_counterexample_service_name_not_randomized :
    ¬ ResourceAttrRandomized "service.name" := by
  rintro ⟨r₁, r₂, h⟩
  exact h rfl

/-- C8 (amended): every `generate_otlp_logs` batch is a tree with exactly
one resource whose attributes are, in order: the fixed service name and
service version from the generator's configuration, a per-batch randomized
host name, the container name derived from the service name, and a
per-batch randomized deployment environment; all generated records sit
under the single scope of that resource. -/
theorem c8_amended_resource_tree_shape (g : TestLogGenerator) (N : Nat) (tid : Option String)
    (r : OtlpRand) :
    (generate_otlp_logs g N tid r).resourceLogs.length = 1 ∧
    ∀ rl ∈ (generate_otlp_logs g N tid r).resourceLogs,
      rl.resource.attributes =
        [⟨"service.name", g.service_name⟩, ⟨"service.version", g.service_version⟩,
         ⟨"host.name", "host-" ++ pad2 r.host_rand⟩,
         ⟨"container.name", g.service_name ++ "-container"⟩,
         ⟨"deployment.environment", envAt r.env_rand⟩] ∧
      rl.scopeLogs.length = 1 ∧
      ∀ sl ∈ rl.scopeLogs, sl.logRecords = allRecords (generate_otlp_logs g N tid r) := by
  refine ⟨rfl, ?_⟩
  intro rl hrl
  simp only [generate_otlp_logs, List.mem_singleton] at hrl
  subst hrl
  refine ⟨rfl, rfl, ?_⟩
  intro sl hsl
  simp only [List.mem_singleton] at hsl
  subst hsl
  rw [allRecords_generate]

/-- C8 witness: the amended resource-tree shape at a concrete call,
specialised to the (single) resource entry. -/
theorem c8_witness :
    (generate_otlp_logs gW 2 none rW).resourceLogs.length = 1 ∧
    ((generate_otlp_logs gW 2 none rW).resourceLogs.getD 0 ⟨⟨[]⟩, []⟩).resource.attributes =
      [⟨"service.name", gW.service_name⟩, ⟨"service.version", gW.service_version⟩,
       ⟨"host.name", "host-" ++ pad2 rW.host_rand⟩,
       ⟨"container.name", gW.service_name ++ "-container"⟩,
       ⟨"deployment.environment", envAt rW.env_rand⟩] ∧
    ((generate_otlp_logs gW 2 none rW).resourceLogs.getD 0 ⟨⟨[]⟩, []⟩).scopeLogs.length = 1 := by
  have h := c8_amended_resource_tree_shape gW 2 none rW
  have h2 := h.2 ((generate_otlp_logs gW 2 none rW).resourceLogs.getD 0 ⟨⟨[]⟩, []⟩) (by decide)
  exact ⟨h.1, h2.1, h2.2.1⟩

/-- The metrics scanning loop is the fold of the insert step over the
selected lines. -/
theorem foldl_filter_dlq (lines : List String) :
    ∀ acc, lines.foldl (fun acc line =>
        if kwLine line then
          if startsWithStr "#" line then acc
          else if strContainsChar ' ' line then dictInsert (tok line 0) (tok line 1) acc
          else acc
        else acc) acc =
      ((lines.filter
          (fun line => !startsWithStr "#" line && kwLine line && strContainsChar ' ' line)).map
        (fun line => (tok line 0, tok line 1))).foldl (fun acc p => dictInsert p.1 p.2 acc) acc := by
  induction lines with
  | nil => intro acc; rfl
  | cons l rest ih =>
    intro acc
    simp only [List.foldl_cons, List.filter_cons]
    cases hkw : kwLine l <;> cases hst : startsWithStr "#" l <;>
      cases hsp : strContainsChar ' ' l <;> simp [hkw, hst, hsp, ih]

/-- C9 counterexample: on the metrics line `error_total 1 2` the code maps
the name to the second space-delimited token `1`, not to everything after
the first space as the claim's "split on the first space into a name/value
pair" states (`1 2`). -/
theorem c9_counterexample_second_token :
    check_dlq_metrics (.response 200 () "error_total 1 2") = [("error_total", "1")] ∧
    claimedDlqMapping "error_total 1 2" = [("error_total", "1 2")] ∧
    check_dlq_metrics (.response 200 () "error_total 1 2") ≠
      claimedDlqMapping "error_total 1 2" := by
  refine ⟨rfl, rfl, ?_⟩
  decide

/-- C9 (amended): on a 200 response, `check_dlq_metrics` returns the
mapping built from exactly those lines that do not start with `#`, contain
`dlq` or `error` case-insensitively and contain a space, taking each such
line's first space-delimited token as the name and its second token (not
the whole remainder) as the value; spaceless keyword lines are omitted, and
any non-200 status or exception yields the empty dict. -/
theorem c9_amended_metrics_mapping :
    (∀ (b : Unit) (text : String),
      check_dlq_metrics (.response 200 b text) = dlqMappingSpec text) ∧
    (∀ res : HttpResult Unit, statusIs200 res = false → check_dlq_metrics res = []) := by
  constructor
  · intro b text
    exact foldl_filter_dlq (splitOnChar '\n' text) []
  · intro res h
    cases res with
    | response status b text =>
      simp only [statusIs200, decide_eq_false_iff_not] at h
      simp [check_dlq_metrics, h]
    | exn e => rfl

/-- C9 witness: the amended mapping at a concrete metrics blob and the
empty dict at a concrete exception. -/
theorem c9_witness :
    check_dlq_metrics
        (.response 200 () "# HELP dlq_size\ndlq_size 7\nerror_total 1 2\nother 3") =
      dlqMappingSpec "# HELP dlq_size\ndlq_size 7\nerror_total 1 2\nother 3" ∧
    check_dlq_metrics (.exn "ConnectionError") = [] :=
  ⟨c9_amended_metrics_mapping.1 () _, c9_amended_metrics_mapping.2 (.exn "ConnectionError") rfl⟩

/-- C10: every record-level attribute value of a generated OTLP record is
the `str(...)` coercion of its resolved value inside a `stringValue`
wrapper, whatever the value's type; each record's `timeUnixNano` equals its
`observedTimeUnixNano`, records are stamped `time_now_ns + i * 1_000_000`,
and the stamp of the next record in the batch is exactly 1,000,000
nanoseconds larger. -/
theorem c10_attribute_coercion_and_timestamps (g : TestLogGenerator) (N : Nat)
    (tid : Option String) (r : OtlpRand) (i : Nat) (rec : LogRecord)
    (h : (allRecords (generate_otlp_logs g N tid r))[i]? = some rec) :
    rec.timeUnixNano = toString (r.time_now_ns + i * 1000000) ∧
    rec.observedTimeUnixNano = rec.timeUnixNano ∧
    rec.attributes = (resolveD (r.attr_oracle i) (templateAt (r.template_choice i))).attributes.map
      (fun p => ⟨p.1, pyStr p.2⟩) ∧
    ∀ rec', (allRecords (generate_otlp_logs g N tid r))[i + 1]? = some rec' →
      rec'.timeUnixNano = toString ((r.time_now_ns + i * 1000000) + 1000000) := by
  rw [allRecords_generate] at h
  rcases Nat.lt_or_ge i N with hiN | hiN
  · rw [List.getElem?_map, List.getElem?_range hiN] at h
    simp only [Option.map_some', Option.some.injEq] at h
    subst h
    refine ⟨by simp only [otlpLogRecord], by simp only [otlpLogRecord],
      by simp only [otlpLogRecord], ?_⟩
    intro rec' h'
    rw [allRecords_generate] at h'
    rcases Nat.lt_or_ge (i + 1) N with hiN' | hiN'
    · rw [List.getElem?_map, List.getElem?_range hiN'] at h'
      simp only [Option.map_some', Option.some.injEq] at h'
      subst h'
      simp only [otlpLogRecord]
      congr 1
      ring
    · rw [List.getElem?_map, List.getElem?_eq_none (by simpa using hiN')] at h'
      cases h'
  · rw [List.getElem?_map, List.getElem?_eq_none (by simpa using hiN)] at h
    cases h

/-- C10 witness: the coercion and timestamp properties at the first record
of a concrete size-2 batch. -/
theorem c10_witness :
    (otlpLogRecord rW.uuid_trace_hex rW 0).timeUnixNano =
        toString (rW.time_now_ns + 0 * 1000000) ∧
    (otlpLogRecord rW.uuid_trace_hex rW 0).observedTimeUnixNano =
        (otlpLogRecord rW.uuid_trace_hex rW 0).timeUnixNano ∧
    (otlpLogRecord rW.uuid_trace_hex rW 0).attributes =
      (resolveD (rW.attr_oracle 0) (templateAt (rW.template_choice 0))).attributes.map
        (fun p => ⟨p.1, pyStr p.2⟩) ∧
    (otlpLogRecord rW.uuid_trace_hex rW 1).timeUnixNano =
      toString ((rW.time_now_ns + 0 * 1000000) + 1000000) := by
  have h := c10_attribute_coercion_and_timestamps gW 2 none rW 0
    (otlpLogRecord rW.uuid_trace_hex rW 0) (by rfl)
  exact ⟨h.1, h.2.1, h.2.2.1, h.2.2.2 _ (by rfl)⟩

/-- C7 witness: the canonical hit count at the concrete mocked responses. -/
theorem c7_witness :
    (get_log_statistics (.response 200 ⟨.obj (some 5), [], []⟩ "") (.exn "x")).map
      (fun st => st.total_logs) = .ok 5 ∧
    (get_log_statistics (.response 200 ⟨.scalar 7, [], []⟩ "") (.exn "x")).map
      (fun st => st.total_logs) = .ok 7 :=
  ⟨c7_total_logs_canonical_int.1 [] [] "" (.exn "x"),
   c7_total_logs_canonical_int.2 7 [] [] "" (.exn "x")⟩
